import Mathlib

/-!
Verification of the SnapThePlant backend (Express routes in `server/routes.ts`,
storage layer in `server/storage.ts`, schema in `shared/schema.ts`).

The embedding models timestamps as integers counting milliseconds, the stores
as lists of records keyed by numeric ids (JavaScript `Map` iteration order is
insertion order, which the lists preserve), and each HTTP handler as a pure
function from a store and the request's data to the updated store and the
response.  `new Date()` inside a handler is modelled by a single `now`
parameter per request; `d.setDate(d.getDate() + f)` becomes adding `f` whole
days.
-/

namespace SnapThePlant

/-- Timestamps in milliseconds, as JavaScript `Date.getTime()`. -/
abbrev Time := Int

def msPerDay : Int := 86400000

/-- `d.setDate(d.getDate() + days)` starting from time `t`. -/
def addDays (t : Time) (days : Int) : Time := t + days * msPerDay

/-- `Math.ceil (a / b)` for integers `a` and positive `b`. -/
def ceilDiv (a b : Int) : Int := -((-a) / b)

/-- Row of the `users` table (shared/schema.ts). -/
structure User where
  id : Nat
  username : String
  password : String
  email : String
  firstName : Option String
  lastName : Option String
  subscriptionType : String
  identificationsRemaining : Int
  stripeCustomerId : Option String
  stripeSubscriptionId : Option String
  trialEndDate : Option Time
  isBetaTester : Option Bool
deriving DecidableEq, Repr

/-- Row of the `plants` table. -/
structure Plant where
  id : Nat
  userId : Nat
  name : String
  scientificName : Option String
  imageUrl : Option String
  dateAdded : Time
  waterFrequency : Int
  lastWatered : Option Time
  fertilizeFrequency : Option Int
  lastFertilized : Option Time
  lightNeeds : Option String
  notes : Option String
  careHealth : Option Int
  isPublic : Option Bool
deriving DecidableEq, Repr

/-- Row of the `care_actions` table. -/
structure CareAction where
  id : Nat
  plantId : Nat
  userId : Nat
  actionType : String
  dueDate : Time
  completedAt : Option Time
  isCompleted : Bool
deriving DecidableEq, Repr

/-- A fully specified plant insert row: every column of the insert schema
supplied.  The zod insert schema makes defaulted and nullable columns
optional; `InsertPlantRow` below models that partiality. -/
structure InsertPlant where
  userId : Nat
  name : String
  scientificName : Option String
  imageUrl : Option String
  dateAdded : Time
  waterFrequency : Int
  lastWatered : Option Time
  fertilizeFrequency : Option Int
  lastFertilized : Option Time
  lightNeeds : Option String
  notes : Option String
  careHealth : Option Int
  isPublic : Option Bool
deriving DecidableEq, Repr

def InsertPlant.toPlant (ip : InsertPlant) (id : Nat) : Plant :=
  { id := id, userId := ip.userId, name := ip.name,
    scientificName := ip.scientificName, imageUrl := ip.imageUrl,
    dateAdded := ip.dateAdded, waterFrequency := ip.waterFrequency,
    lastWatered := ip.lastWatered, fertilizeFrequency := ip.fertilizeFrequency,
    lastFertilized := ip.lastFertilized, lightNeeds := ip.lightNeeds,
    notes := ip.notes, careHealth := ip.careHealth, isPublic := ip.isPublic }

/-- `InsertCareAction`: a care action before the serial id is assigned. -/
structure InsertCareAction where
  plantId : Nat
  userId : Nat
  actionType : String
  dueDate : Time
  completedAt : Option Time
  isCompleted : Bool
deriving DecidableEq, Repr

def InsertCareAction.toCareAction (ic : InsertCareAction) (id : Nat) : CareAction :=
  { id := id, plantId := ic.plantId, userId := ic.userId,
    actionType := ic.actionType, dueDate := ic.dueDate,
    completedAt := ic.completedAt, isCompleted := ic.isCompleted }

/-! ### Partial insert rows

`createInsertSchema` marks every column that has a database default or is
nullable as optional.  `MemStorage.createUser` spreads the insert object
as-is (`{ ...insertUser, id }`), so an omitted column stays `undefined` in
the stored record, while `DatabaseStorage.createUser` inserts through the
database, which applies the column defaults.  The `...Row` types make this
observable: `none` in an insert row means the caller omitted the column. -/

/-- `Partial<User>` as passed to `updateUser`, restricted to the fields the
routes ever patch. -/
structure UserPatch where
  subscriptionType : Option String := none
  identificationsRemaining : Option Int := none
  trialEndDate : Option (Option Time) := none
  isBetaTester : Option (Option Bool) := none
  stripeCustomerId : Option (Option String) := none
  stripeSubscriptionId : Option (Option String) := none
deriving DecidableEq, Repr

/-- The object-spread `{ ...user, ...patch }`. -/
def applyUserPatch (u : User) (p : UserPatch) : User :=
  { u with
    subscriptionType := p.subscriptionType.getD u.subscriptionType,
    identificationsRemaining := p.identificationsRemaining.getD u.identificationsRemaining,
    trialEndDate := p.trialEndDate.getD u.trialEndDate,
    isBetaTester := p.isBetaTester.getD u.isBetaTester,
    stripeCustomerId := p.stripeCustomerId.getD u.stripeCustomerId,
    stripeSubscriptionId := p.stripeSubscriptionId.getD u.stripeSubscriptionId }

/-- The update schema of `PUT /api/plants/:id` (all fields optional). -/
structure PlantPatch where
  name : Option String := none
  scientificName : Option String := none
  imageUrl : Option String := none
  waterFrequency : Option Int := none
  fertilizeFrequency : Option Int := none
  lightNeeds : Option String := none
  notes : Option String := none
  isPublic : Option Bool := none
deriving DecidableEq, Repr

def setOpt {α : Type} (patch : Option α) (old : Option α) : Option α :=
  match patch with
  | some v => some v
  | none => old

def applyPlantPatch (q : Plant) (p : PlantPatch) : Plant :=
  { q with
    name := p.name.getD q.name,
    scientificName := setOpt p.scientificName q.scientificName,
    imageUrl := setOpt p.imageUrl q.imageUrl,
    waterFrequency := p.waterFrequency.getD q.waterFrequency,
    fertilizeFrequency := setOpt p.fertilizeFrequency q.fertilizeFrequency,
    lightNeeds := setOpt p.lightNeeds q.lightNeeds,
    notes := setOpt p.notes q.notes,
    isPublic := setOpt p.isPublic q.isPublic }

/-- `Partial<CareAction>` as passed to `updateCareAction`. -/
structure CareActionPatch where
  dueDate : Option Time := none
  completedAt : Option (Option Time) := none
  isCompleted : Option Bool := none
deriving DecidableEq, Repr

def applyCareActionPatch (c : CareAction) (p : CareActionPatch) : CareAction :=
  { c with
    dueDate := p.dueDate.getD c.dueDate,
    completedAt := p.completedAt.getD c.completedAt,
    isCompleted := p.isCompleted.getD c.isCompleted }

/-- The storage state: the three tables the claims concern, plus the serial
id counters. -/
structure Store where
  users : List User
  plants : List Plant
  careActions : List CareAction
  nextUserId : Nat
  nextPlantId : Nat
  nextCareActionId : Nat
deriving DecidableEq, Repr

def Store.empty : Store :=
  { users := [], plants := [], careActions := [],
    nextUserId := 1, nextPlantId := 1, nextCareActionId := 1 }

/-- `map.set(id, g old)` on a list keyed by `getId`. -/
def setById {α : Type} (getId : α → Nat) (i : Nat) (g : α → α) (l : List α) : List α :=
  l.map (fun x => if getId x = i then g x else x)

namespace MemStorage

def getUser (s : Store) (id : Nat) : Option User :=
  s.users.find? (fun u => u.id == id)

def updateUser (s : Store) (id : Nat) (p : UserPatch) : Store × Option User :=
  match s.users.find? (fun u => u.id == id) with
  | none => (s, none)
  | some u =>
    let u' := applyUserPatch u p
    ({ s with users := setById User.id id (fun _ => u') s.users }, some u')

def getPlant (s : Store) (id : Nat) : Option Plant :=
  s.plants.find? (fun q => q.id == id)

def createPlant (s : Store) (ip : InsertPlant) : Store × Plant :=
  let q := ip.toPlant s.nextPlantId
  ({ s with plants := s.plants ++ [q], nextPlantId := s.nextPlantId + 1 }, q)

def updatePlant (s : Store) (id : Nat) (p : PlantPatch) : Store × Option Plant :=
  match s.plants.find? (fun q => q.id == id) with
  | none => (s, none)
  | some q =>
    let q' := applyPlantPatch q p
    ({ s with plants := setById Plant.id id (fun _ => q') s.plants }, some q')

def deletePlant (s : Store) (id : Nat) : Store × Bool :=
  (({ s with plants := s.plants.filter (fun q => q.id != id) }),
    s.plants.any (fun q => q.id == id))

def updatePlantWatered (s : Store) (id : Nat) (now : Time) : Store × Option Plant :=
  match s.plants.find? (fun q => q.id == id) with
  | none => (s, none)
  | some q =>
    let q' := { q with lastWatered := some now, careHealth := some 100 }
    ({ s with plants := setById Plant.id id (fun _ => q') s.plants }, some q')

def updatePlantFertilized (s : Store) (id : Nat) (now : Time) : Store × Option Plant :=
  match s.plants.find? (fun q => q.id == id) with
  | none => (s, none)
  | some q =>
    let q' := { q with lastFertilized := some now }
    ({ s with plants := setById Plant.id id (fun _ => q') s.plants }, some q')

def getCareActionsForPlant (s : Store) (plantId : Nat) : List CareAction :=
  s.careActions.filter (fun c => c.plantId == plantId)

def createCareAction (s : Store) (ic : InsertCareAction) : Store × CareAction :=
  let c := ic.toCareAction s.nextCareActionId
  ({ s with
      careActions := s.careActions ++ [c],
      nextCareActionId := s.nextCareActionId + 1 }, c)

def updateCareAction (s : Store) (id : Nat) (p : CareActionPatch) : Store × Option CareAction :=
  match s.careActions.find? (fun c => c.id == id) with
  | none => (s, none)
  | some c =>
    let c' := applyCareActionPatch c p
    ({ s with careActions := setById CareAction.id id (fun _ => c') s.careActions }, some c')

def markCareActionComplete (s : Store) (id : Nat) (now : Time) : Store × Option CareAction :=
  match s.careActions.find? (fun c => c.id == id) with
  | none => (s, none)
  | some c =>
    let c' := { c with isCompleted := true, completedAt := some now }
    let s1 : Store :=
      { s with careActions := setById CareAction.id id (fun _ => c') s.careActions }
    match getPlant s1 c.plantId with
    | some q =>
      if c.actionType = "water" then
        ((updatePlantWatered s1 q.id now).1, some c')
      else if c.actionType = "fertilize" then
        ((updatePlantFertilized s1 q.id now).1, some c')
      else (s1, some c')
    | none => (s1, some c')

def deleteCareAction (s : Store) (id : Nat) : Store × Bool :=
  (({ s with careActions := s.careActions.filter (fun c => c.id != id) }),
    s.careActions.any (fun c => c.id == id))

end MemStorage

namespace DatabaseStorage

def getUser (s : Store) (id : Nat) : Option User :=
  s.users.find? (fun u => u.id == id)

def updateUser (s : Store) (id : Nat) (p : UserPatch) : Store × Option User :=
  match s.users.find? (fun u => u.id == id) with
  | none => (s, none)
  | some u =>
    let u' := applyUserPatch u p
    ({ s with users := setById User.id id (fun _ => u') s.users }, some u')

def getPlant (s : Store) (id : Nat) : Option Plant :=
  s.plants.find? (fun q => q.id == id)

def createPlant (s : Store) (ip : InsertPlant) : Store × Plant :=
  let q := ip.toPlant s.nextPlantId
  ({ s with plants := s.plants ++ [q], nextPlantId := s.nextPlantId + 1 }, q)

def updatePlant (s : Store) (id : Nat) (p : PlantPatch) : Store × Option Plant :=
  match s.plants.find? (fun q => q.id == id) with
  | none => (s, none)
  | some q =>
    let q' := applyPlantPatch q p
    ({ s with plants := setById Plant.id id (fun _ => q') s.plants }, some q')

def deletePlant (s : Store) (id : Nat) : Store × Bool :=
  (({ s with plants := s.plants.filter (fun q => q.id != id) }), true)

def updatePlantWatered (s : Store) (id : Nat) (now : Time) : Store × Option Plant :=
  match s.plants.find? (fun q => q.id == id) with
  | none => (s, none)
  | some q =>
    let q' := { q with lastWatered := some now, careHealth := some 100 }
    ({ s with plants := setById Plant.id id (fun _ => q') s.plants }, some q')

def updatePlantFertilized (s : Store) (id : Nat) (now : Time) : Store × Option Plant :=
  match s.plants.find? (fun q => q.id == id) with
  | none => (s, none)
  | some q =>
    let q' := { q with lastFertilized := some now }
    ({ s with plants := setById Plant.id id (fun _ => q') s.plants }, some q')

def getCareActionsForPlant (s : Store) (plantId : Nat) : List CareAction :=
  s.careActions.filter (fun c => c.plantId == plantId)

def createCareAction (s : Store) (ic : InsertCareAction) : Store × CareAction :=
  let c := ic.toCareAction s.nextCareActionId
  ({ s with
      careActions := s.careActions ++ [c],
      nextCareActionId := s.nextCareActionId + 1 }, c)

def updateCareAction (s : Store) (id : Nat) (p : CareActionPatch) : Store × Option CareAction :=
  match s.careActions.find? (fun c => c.id == id) with
  | none => (s, none)
  | some c =>
    let c' := applyCareActionPatch c p
    ({ s with careActions := setById CareAction.id id (fun _ => c') s.careActions }, some c')

def markCareActionComplete (s : Store) (id : Nat) (now : Time) : Store × Option CareAction :=
  match s.careActions.find? (fun c => c.id == id) with
  | none => (s, none)
  | some c =>
    let c' := { c with isCompleted := true, completedAt := some now }
    let s1 : Store :=
      { s with careActions := setById CareAction.id id (fun _ => c') s.careActions }
    if c'.actionType = "water" then
      ((updatePlantWatered s1 c'.plantId now).1, some c')
    else if c'.actionType = "fertilize" then
      ((updatePlantFertilized s1 c'.plantId now).1, some c')
    else (s1, some c')

def deleteCareAction (s : Store) (id : Nat) : Store × Bool :=
  (({ s with careActions := s.careActions.filter (fun c => c.id != id) }), true)

end DatabaseStorage

/-! ## HTTP route handlers (server/routes.ts)

Each handler is modelled past the `isAuthenticated` middleware: `uid` is the
session user's id.  The server runs on `MemStorage` when no `DATABASE_URL` is
configured; the handlers below are written against `MemStorage`. -/

/-- The patch `{ isCompleted: true, completedAt: now }` sent by
`POST /api/care-actions/:id/complete`. -/
def completePatch (now : Time) : CareActionPatch :=
  { isCompleted := some true, completedAt := some (some now) }

inductive CompleteResp where
  | notFound
  | ok (action : CareAction)
deriving DecidableEq, Repr

/-- `POST /api/care-actions/:id/complete`. -/
def completeCareActionRoute (s : Store) (uid : Nat) (actionId : Nat) (now : Time) :
    Store × CompleteResp :=
  let r := MemStorage.updateCareAction s actionId (completePatch now)
  match r.2 with
  | none => (r.1, .notFound)
  | some action =>
    if action.actionType = "water" then
      let s2 := (MemStorage.updatePlantWatered r.1 action.plantId now).1
      match MemStorage.getPlant s2 action.plantId with
      | some plant =>
        if plant.waterFrequency ≠ 0 then
          ((MemStorage.createCareAction s2
            { plantId := plant.id, userId := uid, actionType := "water",
              dueDate := addDays now plant.waterFrequency,
              completedAt := none, isCompleted := false }).1, .ok action)
        else (s2, .ok action)
      | none => (s2, .ok action)
    else if action.actionType = "fertilize" then
      let s2 := (MemStorage.updatePlantFertilized r.1 action.plantId now).1
      match MemStorage.getPlant s2 action.plantId with
      | some plant =>
        match plant.fertilizeFrequency with
        | some f =>
          if f ≠ 0 then
            ((MemStorage.createCareAction s2
              { plantId := plant.id, userId := uid, actionType := "fertilize",
                dueDate := addDays now f,
                completedAt := none, isCompleted := false }).1, .ok action)
          else (s2, .ok action)
        | none => (s2, .ok action)
      | none => (s2, .ok action)
    else (r.1, .ok action)

/-- `POST /api/plants`: the validated body with `userId` overwritten by the
session user's id; then the eager scheduling of the initial care actions. -/
def createPlantRoute (s : Store) (uid : Nat) (body : InsertPlant) (now : Time) :
    Store × Plant :=
  let vd := { body with userId := uid }
  let r := MemStorage.createPlant s vd
  let s1 :=
    if vd.waterFrequency ≠ 0 then
      (MemStorage.createCareAction r.1
        { plantId := r.2.id, userId := uid, actionType := "water",
          dueDate := addDays now vd.waterFrequency,
          completedAt := none, isCompleted := false }).1
    else r.1
  let s2 :=
    match vd.fertilizeFrequency with
    | some f =>
      if f ≠ 0 then
        (MemStorage.createCareAction s1
          { plantId := r.2.id, userId := uid, actionType := "fertilize",
            dueDate := addDays now f,
            completedAt := none, isCompleted := false }).1
      else s1
    | none => s1
  (s2, r.2)

inductive PlantResp where
  | notFound
  | forbidden
  | ok (plant : Option Plant)
deriving DecidableEq, Repr

/-- `PUT /api/plants/:id`. -/
def updatePlantRoute (s : Store) (uid : Nat) (plantId : Nat) (patch : PlantPatch) :
    Store × PlantResp :=
  match MemStorage.getPlant s plantId with
  | none => (s, .notFound)
  | some plant =>
    if plant.userId ≠ uid then (s, .forbidden)
    else
      let r := MemStorage.updatePlant s plantId patch
      (r.1, .ok r.2)

inductive DeletePlantResp where
  | notFound
  | forbidden
  | deleted
  | serverError
deriving DecidableEq, Repr

/-- `DELETE /api/plants/:id`. -/
def deletePlantRoute (s : Store) (uid : Nat) (plantId : Nat) : Store × DeletePlantResp :=
  match MemStorage.getPlant s plantId with
  | none => (s, .notFound)
  | some plant =>
    if plant.userId ≠ uid then (s, .forbidden)
    else
      let actions := MemStorage.getCareActionsForPlant s plantId
      let s1 := actions.foldl (fun t a => (MemStorage.deleteCareAction t a.id).1) s
      let r := MemStorage.deletePlant s1 plantId
      (r.1, if r.2 then .deleted else .serverError)

/-- `POST /api/plants/:id/water`. -/
def waterPlantRoute (s : Store) (uid : Nat) (plantId : Nat) (now : Time) :
    Store × PlantResp :=
  match MemStorage.getPlant s plantId with
  | none => (s, .notFound)
  | some plant =>
    if plant.userId ≠ uid then (s, .forbidden)
    else
      let r := MemStorage.updatePlantWatered s plantId now
      let waterActions :=
        (MemStorage.getCareActionsForPlant r.1 plantId).filter
          (fun a => a.actionType == "water" && !a.isCompleted)
      let s2 := waterActions.foldl
        (fun t a => (MemStorage.markCareActionComplete t a.id now).1) r.1
      let s3 :=
        if plant.waterFrequency ≠ 0 then
          (MemStorage.createCareAction s2
            { plantId := plant.id, userId := uid, actionType := "water",
              dueDate := addDays now plant.waterFrequency,
              completedAt := none, isCompleted := false }).1
        else s2
      (s3, .ok r.2)

/-- `POST /api/plants/:id/fertilize`. -/
def fertilizePlantRoute (s : Store) (uid : Nat) (plantId : Nat) (now : Time) :
    Store × PlantResp :=
  match MemStorage.getPlant s plantId with
  | none => (s, .notFound)
  | some plant =>
    if plant.userId ≠ uid then (s, .forbidden)
    else
      let r := MemStorage.updatePlantFertilized s plantId now
      let fertActions :=
        (MemStorage.getCareActionsForPlant r.1 plantId).filter
          (fun a => a.actionType == "fertilize" && !a.isCompleted)
      let s2 := fertActions.foldl
        (fun t a => (MemStorage.markCareActionComplete t a.id now).1) r.1
      let s3 :=
        match plant.fertilizeFrequency with
        | some f =>
          if f ≠ 0 then
            (MemStorage.createCareAction s2
              { plantId := plant.id, userId := uid, actionType := "fertilize",
                dueDate := addDays now f,
                completedAt := none, isCompleted := false }).1
          else s2
        | none => s2
      (s3, .ok r.2)

inductive CreateCareActionResp where
  | forbidden
  | created (action : CareAction)
deriving DecidableEq, Repr

/-- `POST /api/care-actions`. -/
def createCareActionRoute (s : Store) (uid : Nat) (body : InsertCareAction) :
    Store × CreateCareActionResp :=
  let vd := { body with userId := uid }
  match MemStorage.getPlant s vd.plantId with
  | none => (s, .forbidden)
  | some plant =>
    if plant.userId ≠ uid then (s, .forbidden)
    else
      let r := MemStorage.createCareAction s vd
      (r.1, .created r.2)

inductive IdentifyResp where
  | noImage
  | userNotFound
  | upgradeRequired
  | apiKeyMissing
  | upstreamFailed
  | ok (data : String)
deriving DecidableEq, Repr

/-- `POST /api/identify`.  `upstream` models the Plant.id call (`.error` when
`axios.post` throws).  The third component records whether the upstream
collaborator was called at all. -/
def identifyRoute (s : Store) (uid : Nat) (hasFile : Bool) (apiKey : Bool)
    (upstream : Except Unit String) : Store × IdentifyResp × Bool :=
  if !hasFile then (s, .noImage, false)
  else
    match MemStorage.getUser s uid with
    | none => (s, .userNotFound, false)
    | some user =>
      if user.subscriptionType = "free" ∧ user.identificationsRemaining ≤ 0 then
        (s, .upgradeRequired, false)
      else if !apiKey then (s, .apiKeyMissing, false)
      else
        match upstream with
        | .error _ => (s, .upstreamFailed, true)
        | .ok data =>
          if user.subscriptionType = "free" then
            ((MemStorage.updateUser s user.id
              { identificationsRemaining := some (user.identificationsRemaining - 1) }).1,
              .ok data, true)
          else (s, .ok data, true)

inductive StartTrialResp where
  | alreadySubscribed
  | serverError
  | ok (trialEndDate : Time)
deriving DecidableEq, Repr

/-- `POST /api/start-free-trial`. -/
def startFreeTrialRoute (s : Store) (uid : Nat) (now : Time) : Store × StartTrialResp :=
  match MemStorage.getUser s uid with
  | none => (s, .serverError)
  | some user =>
    if user.subscriptionType ≠ "free" then (s, .alreadySubscribed)
    else
      let te := addDays now 3
      let r := MemStorage.updateUser s uid
        { subscriptionType := some "trial", trialEndDate := some (some te) }
      match r.2 with
      | none => (r.1, .serverError)
      | some _ => (r.1, .ok te)

inductive AdminTrialResp where
  | userNotFound
  | ok (user : User)
deriving DecidableEq, Repr

/-- `POST /api/admin/start-trial` (past the `isAdmin` middleware; `days`
defaults to 3 at the call site). -/
def adminStartTrialRoute (s : Store) (targetId : Nat) (days : Int) (now : Time) :
    Store × AdminTrialResp :=
  let te := addDays now days
  let r := MemStorage.updateUser s targetId
    { subscriptionType := some "trial", trialEndDate := some (some te),
      identificationsRemaining := some 10 }
  match r.2 with
  | none => (r.1, .userNotFound)
  | some u => (r.1, .ok u)

/-! ## Trial-expiry sweep (the `setInterval` body in server/routes.ts) -/

/-- One iteration of the sweep loop for snapshot user `u`.  The accumulator
carries the store and the reminder emails sent so far (recipient and
`daysRemaining`).  JavaScript `!user.email` is truthiness: the empty string
is skipped like a missing value. -/
def trialSweepStep (now : Time) (acc : Store × List (String × Int)) (u : User) :
    Store × List (String × Int) :=
  if u.email = "" then acc
  else
    match u.trialEndDate with
    | none => acc
    | some te =>
      let daysRemaining := ceilDiv (te - now) msPerDay
      let acc1 :=
        if daysRemaining = 1 ∨ daysRemaining = 2 then
          (acc.1, acc.2 ++ [(u.email, daysRemaining)])
        else acc
      if daysRemaining ≤ 0 then
        ((MemStorage.updateUser acc1.1 u.id
          { subscriptionType := some "free", identificationsRemaining := some 3 }).1,
          acc1.2)
      else acc1

/-- One tick of the hourly trial sweep: snapshot the trial users, then walk
the snapshot sending reminders and downgrading expired trials. -/
def trialSweep (s : Store) (now : Time) : Store × List (String × Int) :=
  (s.users.filter (fun u => u.subscriptionType == "trial")).foldl
    (trialSweepStep now) (s, [])

/-! ## Derived queries and sample data used by the statements -/

/-- The pending care actions of one kind for one plant, built from the
storage queries. -/
def pendingActionsOfType (s : Store) (plantId : Nat) (ty : String) : List CareAction :=
  (MemStorage.getCareActionsForPlant s plantId).filter
    (fun a => a.actionType == ty && !a.isCompleted)

/-- The reminder email one sweep tick sends for one snapshot user, if any:
recipient and `daysRemaining`. -/
def trialReminder (now : Time) (u : User) : Option (String × Int) :=
  if u.email = "" then none
  else
    match u.trialEndDate with
    | none => none
    | some te =>
      let d := ceilDiv (te - now) msPerDay
      if d = 1 ∨ d = 2 then some (u.email, d) else none

/-- What one sweep tick does to one snapshot user's record. -/
def sweepUserResult (now : Time) (u : User) : User :=
  if u.email = "" then u
  else
    match u.trialEndDate with
    | none => u
    | some te =>
      if ceilDiv (te - now) msPerDay ≤ 0 then
        { u with subscriptionType := "free", identificationsRemaining := 3 }
      else u

/-- Run a sequence of identify requests `(uid, hasFile, apiKey, upstream)`. -/
def runIdentifySeq (s : Store)
    (reqs : List (Nat × Bool × Bool × Except Unit String)) : Store :=
  reqs.foldl (fun t r => (identifyRoute t r.1 r.2.1 r.2.2.1 r.2.2.2).1) s

def mkUser (id : Nat) (sub : String) (rem : Int) (email : String)
    (te : Option Time) : User :=
  { id := id, username := "user", password := "pw", email := email,
    firstName := none, lastName := none, subscriptionType := sub,
    identificationsRemaining := rem, stripeCustomerId := none,
    stripeSubscriptionId := none, trialEndDate := te, isBetaTester := none }

def mkPlant (id userId : Nat) (wf : Int) (ff : Option Int) : Plant :=
  { id := id, userId := userId, name := "fern", scientificName := none,
    imageUrl := none, dateAdded := 0, waterFrequency := wf,
    lastWatered := none, fertilizeFrequency := ff, lastFertilized := none,
    lightNeeds := none, notes := none, careHealth := some 100,
    isPublic := some false }

def mkAction (id plantId userId : Nat) (ty : String) (due : Time)
    (completed : Bool) : CareAction :=
  { id := id, plantId := plantId, userId := userId, actionType := ty,
    dueDate := due, completedAt := none, isCompleted := completed }

def mkInsertPlant (userId : Nat) (wf : Int) (ff : Option Int) : InsertPlant :=
  { userId := userId, name := "fern", scientificName := none, imageUrl := none,
    dateAdded := 0, waterFrequency := wf, lastWatered := none,
    fertilizeFrequency := ff, lastFertilized := none, lightNeeds := none,
    notes := none, careHealth := some 100, isPublic := some false }

/-- Store with two users, a plant owned by user 1 with water frequency 7,
and one pending water action on it. -/
def sampleStore : Store :=
  { users := [mkUser 1 "free" 5 "a@x.io" none, mkUser 2 "free" 5 "b@x.io" none],
    plants := [mkPlant 1 1 7 (some 30)],
    careActions := [mkAction 1 1 1 "water" (7 * msPerDay) false],
    nextUserId := 3, nextPlantId := 2, nextCareActionId := 2 }

/-- Store with a single user whose free-tier quota is exhausted. -/
def freeZeroStore : Store :=
  { Store.empty with users := [mkUser 1 "free" 0 "z@x.io" none] }

/-- Store with a single premium user. -/
def premiumStore : Store :=
  { Store.empty with users := [mkUser 1 "premium" 999999 "p@x.io" none] }

/-- Store with a single trial user whose email is the empty string and whose
trial ended at time 0. -/
def emptyEmailTrialStore : Store :=
  { Store.empty with users := [mkUser 1 "trial" 10 "" (some 0)] }

/-- Store with a pending water action whose parent plant does not exist. -/
def orphanStore : Store :=
  { Store.empty with
      users := [mkUser 1 "free" 5 "a@x.io" none],
      careActions := [mkAction 1 42 1 "water" 0 false],
      nextUserId := 2, nextCareActionId := 2 }

/-- Store exercising the trial sweep: an expired trial, a trial ending in two
days (relative to `10 * msPerDay`), a free user, and an expired trial whose
email is empty. -/
def sweepStore : Store :=
  { Store.empty with
      users := [mkUser 1 "trial" 10 "t@x.io" (some 0),
                mkUser 2 "trial" 10 "w@x.io" (some (12 * msPerDay)),
                mkUser 3 "free" 3 "f@x.io" none,
                mkUser 4 "trial" 10 "" (some 0)] }

/-! ## General lemmas about the keyed-list store operations -/

theorem filter_and {α : Type} (p q : α → Bool) (l : List α) :
    (l.filter p).filter q = l.filter (fun x => p x && q x) := by
  induction l with
  | nil => rfl
  | cons a l ih =>
    by_cases hp : p a <;> by_cases hq : q a <;>
      simp [List.filter_cons, hp, hq, ih]

theorem setById_cons {α : Type} (getId : α → Nat) (g : α → α) (i : Nat)
    (a : α) (l : List α) :
    setById getId i g (a :: l) =
      (if getId a = i then g a else a) :: setById getId i g l := rfl

theorem find?_setById_of_eq {α : Type} (getId : α → Nat) (g : α → α) (i : Nat)
    (hg : ∀ x, getId x = i → getId (g x) = i) (l : List α) :
    (setById getId i g l).find? (fun x => getId x == i) =
      (l.find? (fun x => getId x == i)).map g := by
  induction l with
  | nil => rfl
  | cons a l ih =>
    rw [setById_cons]
    by_cases h : getId a = i
    · rw [if_pos h, List.find?_cons, List.find?_cons]
      simp [hg a h, h]
    · rw [if_neg h, List.find?_cons, List.find?_cons]
      simp only [show (getId a == i) = false by simp [h]]
      exact ih

theorem find?_setById_of_ne {α : Type} (getId : α → Nat) (g : α → α) {i j : Nat}
    (hg : ∀ x, getId x = j → getId (g x) = j) (hij : i ≠ j) (l : List α) :
    (setById getId j g l).find? (fun x => getId x == i) =
      l.find? (fun x => getId x == i) := by
  induction l with
  | nil => rfl
  | cons a l ih =>
    rw [setById_cons]
    by_cases h : getId a = j
    · have h1 : getId (g a) ≠ i := by
        rw [hg a h]; exact fun hc => hij hc.symm
      have h2 : getId a ≠ i := by
        rw [h]; exact fun hc => hij hc.symm
      rw [if_pos h, List.find?_cons, List.find?_cons]
      simp only [show (getId (g a) == i) = false by simp [h1],
        show (getId a == i) = false by simp [h2]]
      exact ih
    · rw [if_neg h, List.find?_cons, List.find?_cons]
      by_cases h2 : getId a = i
      · simp [h2]
      · simp only [show (getId a == i) = false by simp [h2]]
        exact ih

theorem filter_setById_of_false {α : Type} (getId : α → Nat) (g : α → α)
    (p : α → Bool) (i : Nat) (hp : ∀ x, getId x = i → p (g x) = false)
    (l : List α) :
    (setById getId i g l).filter p =
      (l.filter p).filter (fun x => getId x != i) := by
  induction l with
  | nil => rfl
  | cons a l ih =>
    rw [setById_cons]
    by_cases h : getId a = i
    · rw [if_pos h]
      by_cases hpa : p a
      · rw [List.filter_cons, List.filter_cons]
        simp only [hp a h, hpa, if_pos, if_neg, Bool.false_eq_true, if_false,
          if_true, List.filter_cons, show (getId a != i) = false by simp [h]]
        exact ih
      · rw [List.filter_cons, List.filter_cons]
        simp only [hp a h, show p a = false by simpa using hpa,
          Bool.false_eq_true, if_false]
        exact ih
    · rw [if_neg h]
      by_cases hpa : p a
      · rw [List.filter_cons, List.filter_cons]
        simp only [hpa, if_true, List.filter_cons,
          show (getId a != i) = true by simp [h], ih]
      · rw [List.filter_cons, List.filter_cons]
        simp only [show p a = false by simpa using hpa, Bool.false_eq_true,
          if_false]
        exact ih

theorem find?_eq_of_mem_nodup {α : Type} (getId : α → Nat) {l : List α} {x : α}
    (hn : (l.map getId).Nodup) (hx : x ∈ l) :
    l.find? (fun y => getId y == getId x) = some x := by
  induction l with
  | nil => cases hx
  | cons a l ih =>
    rcases List.mem_cons.mp hx with rfl | hx'
    · simp [List.find?_cons]
    · have hna : getId a ∉ l.map getId := (List.nodup_cons.mp hn).1
      have hne : getId a ≠ getId x := fun h => hna (h ▸ List.mem_map_of_mem getId hx')
      rw [List.find?_cons]
      simp only [show (getId a == getId x) = false by simp [hne]]
      exact ih (List.nodup_cons.mp hn).2 hx'

theorem mem_setById_of_ne {α : Type} (getId : α → Nat) (g : α → α) (i : Nat)
    {l : List α} {x : α} (hx : x ∈ l) (hne : getId x ≠ i) :
    x ∈ setById getId i g l := by
  have hfix : (if getId x = i then g x else x) = x := if_neg hne
  simpa [setById, hfix] using
    List.mem_map_of_mem (fun y => if getId y = i then g y else y) hx

theorem find?_append_of_some {α : Type} {p : α → Bool} {l₁ : List α} {a : α}
    (h : l₁.find? p = some a) (l₂ : List α) : (l₁ ++ l₂).find? p = some a := by
  induction l₁ with
  | nil => cases h
  | cons b l₁ ih =>
    rw [List.find?_cons] at h
    rw [show (b :: l₁ : List α) ++ l₂ = b :: (l₁ ++ l₂) from rfl, List.find?_cons]
    cases hb : p b with
    | false =>
      rw [hb] at h
      simp only [hb]
      exact ih h
    | true =>
      rw [hb] at h
      simp only [hb]
      exact h

theorem identify_step_nonneg (s : Store) (uid : Nat) (hf key : Bool)
    (up : Except Unit String)
    (h : ∀ v ∈ s.users, 0 ≤ v.identificationsRemaining) :
    ∀ v ∈ (identifyRoute s uid hf key up).1.users, 0 ≤ v.identificationsRemaining := by
  intro v hv
  unfold identifyRoute at hv
  split at hv
  · exact h v hv
  · split at hv
    · exact h v hv
    · rename_i u hu
      split at hv
      · exact h v hv
      · rename_i hguard
        split at hv
        · exact h v hv
        · split at hv
          · exact h v hv
          · split at hv
            · rename_i hfree
              -- the decrement branch
              unfold MemStorage.updateUser at hv
              split at hv
              · exact h v hv
              · rename_i w hw
                simp only [setById, List.mem_map] at hv
                obtain ⟨x, hx, hxe⟩ := hv
                by_cases hxi : x.id = u.id
                · rw [if_pos hxi] at hxe
                  subst hxe
                  have : ¬u.identificationsRemaining ≤ 0 := fun hle => hguard ⟨hfree, hle⟩
                  simp [applyUserPatch]
                  omega
                · rw [if_neg hxi] at hxe
                  subst hxe
                  exact h x hx
            · exact h v hv

theorem runIdentifySeq_nonneg
    (reqs : List (Nat × Bool × Bool × Except Unit String)) :
    ∀ s : Store, (∀ v ∈ s.users, 0 ≤ v.identificationsRemaining) →
      ∀ v ∈ (runIdentifySeq s reqs).users, 0 ≤ v.identificationsRemaining := by
  induction reqs with
  | nil => exact fun s h v hv => h v hv
  | cons r reqs ih =>
    intro s h
    have hstep := identify_step_nonneg s r.1 r.2.1 r.2.2.1 r.2.2.2 h
    have hrw : runIdentifySeq s (r :: reqs) =
        runIdentifySeq (identifyRoute s r.1 r.2.1 r.2.2.1 r.2.2.2).1 reqs := rfl
    rw [hrw]
    exact ih _ hstep

/-- C4: a free user with an exhausted quota gets the `upgrade: true` denial,
the upstream recognizer is not called, and the store (hence the counter) is
untouched; moreover no sequence of identify requests can drive any user's
counter negative. -/
theorem C4_theorem (s : Store) (uid : Nat) (u : User) (apiKey : Bool)
    (upstream : Except Unit String)
    (hu : MemStorage.getUser s uid = some u)
    (hfree : u.subscriptionType = "free")
    (hzero : u.identificationsRemaining ≤ 0) :
    identifyRoute s uid true apiKey upstream = (s, .upgradeRequired, false) ∧
    ∀ reqs : List (Nat × Bool × Bool × Except Unit String),
      (∀ v ∈ s.users, 0 ≤ v.identificationsRemaining) →
      ∀ v ∈ (runIdentifySeq s reqs).users, 0 ≤ v.identificationsRemaining := by
  constructor
  · unfold identifyRoute
    rw [hu]
    simp [hfree, hzero]
  · intro reqs hinv
    exact runIdentifySeq_nonneg reqs s hinv

theorem C4_theorem_witness :
    identifyRoute freeZeroStore 1 true true (Except.ok "species") =
      (freeZeroStore, .upgradeRequired, false) ∧
    ∀ v ∈ (runIdentifySeq freeZeroStore [(1, true, true, Except.ok "x")]).users,
      0 ≤ v.identificationsRemaining := by
  have h := C4_theorem freeZeroStore 1 (mkUser 1 "free" 0 "z@x.io" none) true
    (Except.ok "species") (by decide) rfl (by decide)
  exact ⟨h.1, h.2 [(1, true, true, Except.ok "x")] (by decide)⟩

/-- C5: the quota is consumed only on upstream success and only for free
users.  An upstream failure leaves the store untouched; a success for a free
user decrements the counter by exactly one and changes nothing else; a
success for a non-free user changes nothing. -/
theorem C5_theorem (s : Store) (uid : Nat) (u : User)
    (hu : MemStorage.getUser s uid = some u) :
    (∀ (hf key : Bool) (e : Unit), (identifyRoute s uid hf key (.error e)).1 = s) ∧
    (∀ d : String, u.subscriptionType = "free" → 0 < u.identificationsRemaining →
      identifyRoute s uid true true (.ok d) =
        ({ s with users := setById User.id uid (fun _ => { u with identificationsRemaining := u.identificationsRemaining - 1 }) s.users },
         .ok d, true)) ∧
    (∀ d : String, u.subscriptionType ≠ "free" →
      identifyRoute s uid true true (.ok d) = (s, .ok d, true)) := by
  have huid : u.id = uid := by simpa using List.find?_some hu
  refine ⟨?_, ?_, ?_⟩
  · intro hf key e
    cases hf with
    | false => rfl
    | true =>
      unfold identifyRoute
      rw [hu]
      by_cases hg : u.subscriptionType = "free" ∧ u.identificationsRemaining ≤ 0
      · simp [hg]
      · cases key with
        | false => simp [hg]
        | true => simp [hg]
  · intro d hfree hpos
    have hne : ¬(u.subscriptionType = "free" ∧ u.identificationsRemaining ≤ 0) := by
      rintro ⟨-, hle⟩; omega
    unfold identifyRoute
    rw [hu]
    simp only [Bool.not_true, Bool.false_eq_true, if_false, hne, if_pos hfree]
    unfold MemStorage.updateUser
    unfold MemStorage.getUser at hu
    rw [huid, hu]
    simp [applyUserPatch, huid]
  · intro d hnfree
    have hne : ¬(u.subscriptionType = "free" ∧ u.identificationsRemaining ≤ 0) :=
      fun hc => hnfree hc.1
    unfold identifyRoute
    rw [hu]
    simp [hne, hnfree]

/-! ## Lemmas about the complete-care-action route -/

theorem completeCareActionRoute_resp (s : Store) (uid aid : Nat) (now : Time)
    (a : CareAction) (hfind : s.careActions.find? (fun c => c.id == aid) = some a) :
    (completeCareActionRoute s uid aid now).2 =
      .ok (applyCareActionPatch a (completePatch now)) := by
  unfold completeCareActionRoute MemStorage.updateCareAction
  rw [hfind]
  dsimp only
  repeat' split
  all_goals rfl

theorem completeCareActionRoute_careActions (s : Store) (uid aid : Nat) (now : Time)
    (a : CareAction) (hfind : s.careActions.find? (fun c => c.id == aid) = some a) :
    ∃ tail : List CareAction,
      (completeCareActionRoute s uid aid now).1.careActions =
        setById CareAction.id aid (fun _ => applyCareActionPatch a (completePatch now)) s.careActions ++ tail := by
  unfold completeCareActionRoute MemStorage.updateCareAction
    MemStorage.updatePlantWatered MemStorage.updatePlantFertilized
    MemStorage.getPlant MemStorage.createCareAction
  rw [hfind]
  dsimp only
  repeat' split
  all_goals first
    | exact ⟨[], (List.append_nil _).symm⟩
    | exact ⟨[_], rfl⟩

theorem completeCareActionRoute_marks (s : Store) (uid aid : Nat) (now : Time)
    (a : CareAction) (hfind : s.careActions.find? (fun c => c.id == aid) = some a) :
    (completeCareActionRoute s uid aid now).1.careActions.find? (fun c => c.id == aid) =
      some (applyCareActionPatch a (completePatch now)) := by
  have haid : a.id = aid := by simpa using List.find?_some hfind
  have hfind1 : (setById CareAction.id aid
      (fun _ => applyCareActionPatch a (completePatch now)) s.careActions).find?
        (fun c => c.id == aid) = some (applyCareActionPatch a (completePatch now)) := by
    rw [find?_setById_of_eq CareAction.id
      (fun _ => applyCareActionPatch a (completePatch now)) aid (fun x _ => haid), hfind]
    rfl
  obtain ⟨tail, htail⟩ := completeCareActionRoute_careActions s uid aid now a hfind
  rw [htail]
  exact find?_append_of_some hfind1 tail

/-! ## C2: ownership checks on mutating routes -/

/-- C2 is false as stated: completing a care action never checks ownership.
In `sampleStore` the pending action 1 belongs to user 1, yet user 2's
completion request mutates the store and succeeds. -/
theorem C2_counterexample :
    ((sampleStore.careActions.find? (fun c => c.id == 1)).map (fun c => c.userId) = some 1) ∧
    (completeCareActionRoute sampleStore 2 1 100).1 ≠ sampleStore ∧
    ((completeCareActionRoute sampleStore 2 1 100).1.careActions.find?
      (fun c => c.id == 1)).map (fun c => c.isCompleted) = some true := by
  decide

/-- C2 (amended): the plant update/delete/water/fertilize routes and care
action creation respond 403 without mutating anything when the target is
owned by another user; the completion route, however, performs no ownership
check: it marks the action completed and succeeds for any authenticated
caller. -/
theorem C2_amended (s : Store) (uid : Nat) (now : Time) :
    (∀ pid p patch, MemStorage.getPlant s pid = some p → p.userId ≠ uid →
      updatePlantRoute s uid pid patch = (s, .forbidden)) ∧
    (∀ pid p, MemStorage.getPlant s pid = some p → p.userId ≠ uid →
      deletePlantRoute s uid pid = (s, .forbidden)) ∧
    (∀ pid p, MemStorage.getPlant s pid = some p → p.userId ≠ uid →
      waterPlantRoute s uid pid now = (s, .forbidden)) ∧
    (∀ pid p, MemStorage.getPlant s pid = some p → p.userId ≠ uid →
      fertilizePlantRoute s uid pid now = (s, .forbidden)) ∧
    (∀ (body : InsertCareAction) p, MemStorage.getPlant s body.plantId = some p →
      p.userId ≠ uid → createCareActionRoute s uid body = (s, .forbidden)) ∧
    (∀ aid a, s.careActions.find? (fun c => c.id == aid) = some a → a.userId ≠ uid →
      (completeCareActionRoute s uid aid now).2 =
        .ok (applyCareActionPatch a (completePatch now)) ∧
      (completeCareActionRoute s uid aid now).1.careActions.find? (fun c => c.id == aid) =
        some (applyCareActionPatch a (completePatch now))) := by
  refine ⟨?_, ?_, ?_, ?_, ?_, ?_⟩
  · intro pid p patch hp hne
    unfold updatePlantRoute
    rw [hp]
    dsimp only
    rw [if_pos hne]
  · intro pid p hp hne
    unfold deletePlantRoute
    rw [hp]
    dsimp only
    rw [if_pos hne]
  · intro pid p hp hne
    unfold waterPlantRoute
    rw [hp]
    dsimp only
    rw [if_pos hne]
  · intro pid p hp hne
    unfold fertilizePlantRoute
    rw [hp]
    dsimp only
    rw [if_pos hne]
  · intro body p hp hne
    unfold createCareActionRoute
    dsimp only
    rw [hp]
    dsimp only
    rw [if_pos hne]
  · intro aid a hfind _
    exact ⟨completeCareActionRoute_resp s uid aid now a hfind,
      completeCareActionRoute_marks s uid aid now a hfind⟩

theorem C2_amended_witness :
    updatePlantRoute sampleStore 2 1 {} = (sampleStore, .forbidden) ∧
    deletePlantRoute sampleStore 2 1 = (sampleStore, .forbidden) ∧
    waterPlantRoute sampleStore 2 1 50 = (sampleStore, .forbidden) ∧
    fertilizePlantRoute sampleStore 2 1 50 = (sampleStore, .forbidden) ∧
    createCareActionRoute sampleStore 2
      { plantId := 1, userId := 2, actionType := "water", dueDate := 0,
        completedAt := none, isCompleted := false } = (sampleStore, .forbidden) ∧
    (completeCareActionRoute sampleStore 2 1 50).2 =
      .ok (applyCareActionPatch (mkAction 1 1 1 "water" (7 * msPerDay) false)
        (completePatch 50)) := by
  have h := C2_amended sampleStore 2 50
  exact ⟨h.1 1 (mkPlant 1 1 7 (some 30)) {} (by decide) (by decide),
    h.2.1 1 (mkPlant 1 1 7 (some 30)) (by decide) (by decide),
    h.2.2.1 1 (mkPlant 1 1 7 (some 30)) (by decide) (by decide),
    h.2.2.2.1 1 (mkPlant 1 1 7 (some 30)) (by decide) (by decide),
    h.2.2.2.2.1 _ (mkPlant 1 1 7 (some 30)) (by decide) (by decide),
    (h.2.2.2.2.2 1 (mkAction 1 1 1 "water" (7 * msPerDay) false)
      (by decide) (by decide)).1⟩

/-! ## C6: completion of a missing action / an orphaned action -/

/-- C6: completing a missing action is a 404 no-op; completing an action
whose parent plant is gone still records the completion, skips the plant
update and the rescheduling, and succeeds. -/
theorem C6_theorem (s : Store) (uid aid : Nat) (now : Time) :
    (s.careActions.find? (fun c => c.id == aid) = none →
      completeCareActionRoute s uid aid now = (s, .notFound)) ∧
    (∀ a, s.careActions.find? (fun c => c.id == aid) = some a →
      MemStorage.getPlant s a.plantId = none →
      completeCareActionRoute s uid aid now =
        ({ s with careActions := setById CareAction.id aid (fun _ => applyCareActionPatch a (completePatch now)) s.careActions },
         .ok (applyCareActionPatch a (completePatch now)))) := by
  constructor
  · intro h
    unfold completeCareActionRoute MemStorage.updateCareAction
    rw [h]
  · intro a hfind hp
    unfold completeCareActionRoute MemStorage.updateCareAction
      MemStorage.updatePlantWatered MemStorage.updatePlantFertilized MemStorage.getPlant
    unfold MemStorage.getPlant at hp
    rw [hfind]
    dsimp only
    have hpa : (applyCareActionPatch a (completePatch now)).plantId = a.plantId := rfl
    have hta : (applyCareActionPatch a (completePatch now)).actionType = a.actionType := rfl
    by_cases hw : a.actionType = "water"
    · simp [hta, hpa, hw, hp]
    · by_cases hf : a.actionType = "fertilize" <;> simp [hta, hpa, hw, hf, hp]

theorem C6_theorem_witness :
    completeCareActionRoute orphanStore 1 99 5 = (orphanStore, .notFound) ∧
    completeCareActionRoute orphanStore 1 1 5 =
      ({ orphanStore with careActions := setById CareAction.id 1 (fun _ => applyCareActionPatch (mkAction 1 42 1 "water" 0 false) (completePatch 5)) orphanStore.careActions },
       .ok (applyCareActionPatch (mkAction 1 42 1 "water" 0 false) (completePatch 5))) := by
  have h := C6_theorem orphanStore 1 99 5
  have h2 := C6_theorem orphanStore 1 1 5
  exact ⟨h.1 (by decide),
    h2.2 (mkAction 1 42 1 "water" 0 false) (by decide) (by decide)⟩

theorem C5_theorem_witness :
    (identifyRoute sampleStore 1 true true (Except.error ())).1 = sampleStore ∧
    identifyRoute sampleStore 1 true true (Except.ok "species") =
      ({ sampleStore with users := setById User.id 1 (fun _ => { mkUser 1 "free" 5 "a@x.io" none with identificationsRemaining := 4 }) sampleStore.users },
       .ok "species", true) := by
  have h := C5_theorem sampleStore 1 (mkUser 1 "free" 5 "a@x.io" none) (by decide)
  refine ⟨h.1 true true (), ?_⟩
  have h2 := h.2.1 "species" rfl (by decide)
  rw [h2]
  decide

/-! ## C9: starting trials -/

/-- C9 is false as stated: the admin start-trial route performs no check of
the target's current subscription: it happily puts a premium user on trial. -/
theorem C9_counterexample :
    (adminStartTrialRoute premiumStore 1 3 0).1 ≠ premiumStore ∧
    ((adminStartTrialRoute premiumStore 1 3 0).1.users.map (fun u => u.subscriptionType)) =
      ["trial"] ∧
    (adminStartTrialRoute premiumStore 1 3 0).2 ≠ .userNotFound := by
  decide

/-- C9 (amended): the user-facing start-free-trial route rejects any caller
who is not on the free plan and leaves the store unchanged; the admin
start-trial route performs no such check and unconditionally moves any
existing target user - whatever their current subscription - onto a trial
with `trialEndDate = now + days` and ten identifications. -/
theorem C9_amended (s : Store) (now : Time) :
    (∀ uid u, MemStorage.getUser s uid = some u → u.subscriptionType ≠ "free" →
      startFreeTrialRoute s uid now = (s, .alreadySubscribed)) ∧
    (∀ tid days u, MemStorage.getUser s tid = some u →
      adminStartTrialRoute s tid days now =
        ({ s with users := setById User.id tid (fun _ => { u with subscriptionType := "trial", trialEndDate := some (addDays now days), identificationsRemaining := 10 }) s.users },
         .ok { u with subscriptionType := "trial", trialEndDate := some (addDays now days), identificationsRemaining := 10 })) := by
  constructor
  · intro uid u hu hne
    unfold startFreeTrialRoute
    rw [hu]
    dsimp only
    rw [if_pos hne]
  · intro tid days u hu
    unfold adminStartTrialRoute MemStorage.updateUser
    unfold MemStorage.getUser at hu
    dsimp only
    rw [hu]
    rfl

theorem C9_amended_witness :
    startFreeTrialRoute premiumStore 1 0 = (premiumStore, .alreadySubscribed) ∧
    adminStartTrialRoute premiumStore 1 3 0 =
      ({ premiumStore with users := setById User.id 1 (fun _ => { mkUser 1 "premium" 999999 "p@x.io" none with subscriptionType := "trial", trialEndDate := some (addDays 0 3), identificationsRemaining := 10 }) premiumStore.users },
       .ok { mkUser 1 "premium" 999999 "p@x.io" none with subscriptionType := "trial", trialEndDate := some (addDays 0 3), identificationsRemaining := 10 }) := by
  have h := C9_amended premiumStore 0
  exact ⟨h.1 1 (mkUser 1 "premium" 999999 "p@x.io" none) (by decide) (by decide),
    h.2 1 3 (mkUser 1 "premium" 999999 "p@x.io" none) (by decide)⟩

/-! ## C10: effects and frame of the watered/fertilized updates -/

/-- C10: in both storage implementations, recording a watering sets
`lastWatered` and resets `careHealth` to 100 and changes nothing else, while
recording a fertilizing sets only `lastFertilized` (in particular it leaves
`careHealth` alone); users and care actions are untouched either way. -/
theorem C10_theorem (s : Store) (pid : Nat) (now : Time) (p : Plant)
    (hp : MemStorage.getPlant s pid = some p) :
    MemStorage.updatePlantWatered s pid now =
      ({ s with plants := setById Plant.id pid (fun _ => { p with lastWatered := some now, careHealth := some 100 }) s.plants },
       some { p with lastWatered := some now, careHealth := some 100 }) ∧
    DatabaseStorage.updatePlantWatered s pid now =
      ({ s with plants := setById Plant.id pid (fun _ => { p with lastWatered := some now, careHealth := some 100 }) s.plants },
       some { p with lastWatered := some now, careHealth := some 100 }) ∧
    MemStorage.updatePlantFertilized s pid now =
      ({ s with plants := setById Plant.id pid (fun _ => { p with lastFertilized := some now }) s.plants },
       some { p with lastFertilized := some now }) ∧
    DatabaseStorage.updatePlantFertilized s pid now =
      ({ s with plants := setById Plant.id pid (fun _ => { p with lastFertilized := some now }) s.plants },
       some { p with lastFertilized := some now }) ∧
    MemStorage.getPlant (MemStorage.updatePlantWatered s pid now).1 pid =
      some { p with lastWatered := some now, careHealth := some 100 } ∧
    MemStorage.getPlant (MemStorage.updatePlantFertilized s pid now).1 pid =
      some { p with lastFertilized := some now } ∧
    (MemStorage.updatePlantWatered s pid now).1.users = s.users ∧
    (MemStorage.updatePlantWatered s pid now).1.careActions = s.careActions ∧
    (MemStorage.updatePlantFertilized s pid now).1.users = s.users ∧
    (MemStorage.updatePlantFertilized s pid now).1.careActions = s.careActions := by
  unfold MemStorage.getPlant at hp
  have hpid : p.id = pid := by simpa using List.find?_some hp
  have hw : MemStorage.updatePlantWatered s pid now =
      ({ s with plants := setById Plant.id pid (fun _ => { p with lastWatered := some now, careHealth := some 100 }) s.plants },
       some { p with lastWatered := some now, careHealth := some 100 }) := by
    unfold MemStorage.updatePlantWatered
    rw [hp]
  have hf : MemStorage.updatePlantFertilized s pid now =
      ({ s with plants := setById Plant.id pid (fun _ => { p with lastFertilized := some now }) s.plants },
       some { p with lastFertilized := some now }) := by
    unfold MemStorage.updatePlantFertilized
    rw [hp]
  refine ⟨hw, ?_, hf, ?_, ?_, ?_, ?_, ?_, ?_, ?_⟩
  · unfold DatabaseStorage.updatePlantWatered
    rw [hp]
  · unfold DatabaseStorage.updatePlantFertilized
    rw [hp]
  · rw [hw]
    unfold MemStorage.getPlant
    dsimp only
    rw [find?_setById_of_eq Plant.id (fun _ => { p with lastWatered := some now, careHealth := some 100 }) pid (fun x _ => hpid), hp]
    rfl
  · rw [hf]
    unfold MemStorage.getPlant
    dsimp only
    rw [find?_setById_of_eq Plant.id (fun _ => { p with lastFertilized := some now }) pid (fun x _ => hpid), hp]
    rfl
  · rw [hw]
  · rw [hw]
  · rw [hf]
  · rw [hf]

theorem C10_theorem_witness :
    MemStorage.updatePlantWatered sampleStore 1 99 =
      ({ sampleStore with plants := setById Plant.id 1 (fun _ => { mkPlant 1 1 7 (some 30) with lastWatered := some 99, careHealth := some 100 }) sampleStore.plants },
       some { mkPlant 1 1 7 (some 30) with lastWatered := some 99, careHealth := some 100 }) ∧
    MemStorage.updatePlantFertilized sampleStore 1 99 =
      ({ sampleStore with plants := setById Plant.id 1 (fun _ => { mkPlant 1 1 7 (some 30) with lastFertilized := some 99 }) sampleStore.plants },
       some { mkPlant 1 1 7 (some 30) with lastFertilized := some 99 }) := by
  have h := C10_theorem sampleStore 1 99 (mkPlant 1 1 7 (some 30)) (by decide)
  exact ⟨h.1, h.2.2.1⟩

/-! ## C7: eager scheduling on plant creation -/

/-- C7 is false as stated: `waterFrequency` is a non-nullable column, so `0`
is a non-null value, yet creating a plant with `waterFrequency = 0` schedules
no water action at all (the handler tests JavaScript truthiness, and `0` is
falsy), where the claim demands exactly one. -/
theorem C7_counterexample :
    (createPlantRoute Store.empty 1 (mkInsertPlant 1 0 none) 100).1.careActions = [] := by
  decide

/-- C7 (amended): creating a plant schedules exactly one pending water action
due `now + waterFrequency` days when `waterFrequency` is nonzero (truthy) and
none when it is `0`, and exactly one pending fertilize action due
`now + fertilizeFrequency` days when `fertilizeFrequency` is non-null and
nonzero, and none otherwise. -/
theorem C7_amended (s : Store) (uid : Nat) (body : InsertPlant) (now : Time)
    (hfresh : ∀ c ∈ s.careActions, c.plantId ≠ s.nextPlantId) :
    (createPlantRoute s uid body now).2.id = s.nextPlantId ∧
    MemStorage.getCareActionsForPlant (createPlantRoute s uid body now).1 s.nextPlantId =
      (if body.waterFrequency ≠ 0 then
        [{ id := s.nextCareActionId, plantId := s.nextPlantId, userId := uid,
           actionType := "water", dueDate := addDays now body.waterFrequency,
           completedAt := none, isCompleted := false }] else []) ++
      (match body.fertilizeFrequency with
       | some f =>
         if f ≠ 0 then
           [{ id := if body.waterFrequency ≠ 0 then s.nextCareActionId + 1 else s.nextCareActionId,
              plantId := s.nextPlantId, userId := uid,
              actionType := "fertilize", dueDate := addDays now f,
              completedAt := none, isCompleted := false }] else []
       | none => []) := by
  have hnil : s.careActions.filter (fun c => c.plantId == s.nextPlantId) = [] := by
    rw [List.filter_eq_nil_iff]
    intro c hc
    simpa using hfresh c hc
  constructor
  · rfl
  · unfold createPlantRoute MemStorage.createPlant MemStorage.createCareAction
      MemStorage.getCareActionsForPlant
    dsimp only
    by_cases hwf : body.waterFrequency = 0
    · cases hff : body.fertilizeFrequency with
      | none => simp [hwf, hnil]
      | some f =>
        by_cases hf0 : f = 0
        · simp [hwf, hff, hf0, hnil]
        · simp [hwf, hff, hf0, hnil, List.filter_append,
            InsertCareAction.toCareAction, InsertPlant.toPlant]
    · cases hff : body.fertilizeFrequency with
      | none =>
        simp [hwf, hff, hnil, List.filter_append,
          InsertCareAction.toCareAction, InsertPlant.toPlant]
      | some f =>
        by_cases hf0 : f = 0
        · simp [hwf, hff, hf0, hnil, List.filter_append,
            InsertCareAction.toCareAction, InsertPlant.toPlant]
        · simp [hwf, hff, hf0, hnil, List.filter_append,
            InsertCareAction.toCareAction, InsertPlant.toPlant]

theorem C7_amended_witness :
    (createPlantRoute Store.empty 1 (mkInsertPlant 1 7 (some 30)) 0).2.id =
      Store.empty.nextPlantId ∧
    MemStorage.getCareActionsForPlant
        (createPlantRoute Store.empty 1 (mkInsertPlant 1 7 (some 30)) 0).1
        Store.empty.nextPlantId =
      [{ id := 1, plantId := 1, userId := 1, actionType := "water",
         dueDate := addDays 0 7, completedAt := none, isCompleted := false },
       { id := 2, plantId := 1, userId := 1, actionType := "fertilize",
         dueDate := addDays 0 30, completedAt := none, isCompleted := false }] := by
  have h := C7_amended Store.empty 1 (mkInsertPlant 1 7 (some 30)) 0 (by decide)
  refine ⟨h.1, ?_⟩
  rw [h.2]
  decide

/-! ## C1: completing a water action reschedules exactly one successor -/

/-- C1 is false as stated: the completion route never checks whether the
action was already completed, so completing the same action twice creates a
second pending water action for the plant, where the claim demands at most
one (idempotence). -/
theorem C1_counterexample :
    (pendingActionsOfType (completeCareActionRoute sampleStore 1 1 100).1 1 "water").length = 1 ∧
    (pendingActionsOfType
      (completeCareActionRoute (completeCareActionRoute sampleStore 1 1 100).1 1 1 200).1
      1 "water").length = 2 := by
  decide

/-- C1 (amended): completing a water action on a plant with nonzero
`waterFrequency` responds with the completed action and replaces the
completed action, among the plant's pending water actions, by exactly one new
pending water action due `now + waterFrequency` days; but the route is not
idempotent: it does this whether or not the action was still pending, so each
repeated completion appends one more pending action. -/
theorem C1_amended (s : Store) (uid aid : Nat) (now : Time) (a : CareAction) (p : Plant)
    (hfind : s.careActions.find? (fun c => c.id == aid) = some a)
    (hw : a.actionType = "water")
    (hp : MemStorage.getPlant s a.plantId = some p)
    (hf : p.waterFrequency ≠ 0) :
    (completeCareActionRoute s uid aid now).2 =
      .ok (applyCareActionPatch a (completePatch now)) ∧
    pendingActionsOfType (completeCareActionRoute s uid aid now).1 a.plantId "water" =
      (pendingActionsOfType s a.plantId "water").filter (fun c => c.id != aid) ++
        [{ id := s.nextCareActionId, plantId := p.id, userId := uid, actionType := "water",
           dueDate := addDays now p.waterFrequency, completedAt := none,
           isCompleted := false }] := by
  unfold MemStorage.getPlant at hp
  have haid : a.id = aid := by simpa using List.find?_some hfind
  have hpid : p.id = a.plantId := by simpa using List.find?_some hp
  have hroute : (completeCareActionRoute s uid aid now).1.careActions =
      setById CareAction.id aid (fun _ => applyCareActionPatch a (completePatch now)) s.careActions ++
        [{ id := s.nextCareActionId, plantId := p.id, userId := uid, actionType := "water",
           dueDate := addDays now p.waterFrequency, completedAt := none,
           isCompleted := false }] := by
    unfold completeCareActionRoute MemStorage.updateCareAction
      MemStorage.updatePlantWatered MemStorage.getPlant MemStorage.createCareAction
    rw [hfind]
    dsimp only
    rw [show (applyCareActionPatch a (completePatch now)).actionType = a.actionType from rfl,
      show (applyCareActionPatch a (completePatch now)).plantId = a.plantId from rfl,
      if_pos hw, hp]
    dsimp only
    rw [find?_setById_of_eq Plant.id (fun _ => { p with lastWatered := some now, careHealth := some 100 }) a.plantId (fun x _ => hpid), hp]
    simp only [Option.map_some']
    rw [if_pos hf]
    rfl
  refine ⟨completeCareActionRoute_resp s uid aid now a hfind, ?_⟩
  have hp2 : ∀ x : CareAction, CareAction.id x = aid →
      ((fun c : CareAction => (c.plantId == a.plantId) &&
        (c.actionType == "water" && !c.isCompleted))
        ((fun _ => applyCareActionPatch a (completePatch now)) x)) = false := by
    intro x _
    simp [show (applyCareActionPatch a (completePatch now)).isCompleted = true from rfl]
  unfold pendingActionsOfType MemStorage.getCareActionsForPlant
  rw [hroute]
  simp only [filter_and]
  rw [List.filter_append,
    filter_setById_of_false CareAction.id (fun _ => applyCareActionPatch a (completePatch now)) _ aid hp2]
  simp only [filter_and]
  congr 1
  simp [hpid, hw]

theorem C1_amended_witness :
    (completeCareActionRoute sampleStore 1 1 100).2 =
      .ok (applyCareActionPatch (mkAction 1 1 1 "water" (7 * msPerDay) false)
        (completePatch 100)) ∧
    pendingActionsOfType (completeCareActionRoute sampleStore 1 1 100).1
        (mkAction 1 1 1 "water" (7 * msPerDay) false).plantId "water" =
      [{ id := 2, plantId := 1, userId := 1, actionType := "water",
         dueDate := addDays 100 7, completedAt := none, isCompleted := false }] := by
  have h := C1_amended sampleStore 1 1 100 (mkAction 1 1 1 "water" (7 * msPerDay) false)
    (mkPlant 1 1 7 (some 30)) (by decide) rfl (by decide) (by decide)
  refine ⟨h.1, ?_⟩
  rw [h.2]
  decide

/-! ## C8: the trial-expiry sweep -/

theorem trialSweepStep_snd (now : Time) (acc : Store × List (String × Int)) (u : User) :
    (trialSweepStep now acc u).2 = acc.2 ++ (trialReminder now u).toList := by
  unfold trialSweepStep trialReminder
  by_cases he : u.email = ""
  · simp [he]
  · cases hte : u.trialEndDate with
    | none => simp [he, hte]
    | some te =>
      by_cases hd : ceilDiv (te - now) msPerDay = 1 ∨ ceilDiv (te - now) msPerDay = 2
      · have hnle : ¬ceilDiv (te - now) msPerDay ≤ 0 := by rcases hd with h | h <;> omega
        simp [he, hte, hd, hnle]
      · by_cases hle : ceilDiv (te - now) msPerDay ≤ 0 <;> simp [he, hte, hd, hle]

theorem trialSweepStep_fst_find_ne (now : Time) (acc : Store × List (String × Int))
    (u : User) {i : Nat} (hne : u.id ≠ i) :
    (trialSweepStep now acc u).1.users.find? (fun v => v.id == i) =
      acc.1.users.find? (fun v => v.id == i) := by
  have hupd : ∀ t : Store, ∀ p : UserPatch,
      ((MemStorage.updateUser t u.id p).1).users.find? (fun v => v.id == i) =
        t.users.find? (fun v => v.id == i) := by
    intro t p
    unfold MemStorage.updateUser
    cases hw : t.users.find? (fun v => v.id == u.id) with
    | none => rfl
    | some w =>
      have hwid : w.id = u.id := by simpa using List.find?_some hw
      dsimp only
      exact find?_setById_of_ne User.id (fun _ => applyUserPatch w p)
        (fun x _ => by simpa using hwid) (fun hc => hne hc.symm) t.users
  unfold trialSweepStep
  by_cases he : u.email = ""
  · simp [he]
  · cases hte : u.trialEndDate with
    | none => simp [he, hte]
    | some te =>
      by_cases hd : ceilDiv (te - now) msPerDay = 1 ∨ ceilDiv (te - now) msPerDay = 2
      · have hnle : ¬ceilDiv (te - now) msPerDay ≤ 0 := by rcases hd with h | h <;> omega
        simp [he, hte, hd, hnle]
      · by_cases hle : ceilDiv (te - now) msPerDay ≤ 0
        · simp [he, hte, hd, hle, hupd]
        · simp [he, hte, hd, hle]

theorem trialSweepStep_fst_find_self (now : Time) (acc : Store × List (String × Int))
    (u : User) (hfind : acc.1.users.find? (fun v => v.id == u.id) = some u) :
    (trialSweepStep now acc u).1.users.find? (fun v => v.id == u.id) =
      some (sweepUserResult now u) := by
  unfold trialSweepStep sweepUserResult
  by_cases he : u.email = ""
  · simpa [he] using hfind
  · cases hte : u.trialEndDate with
    | none => simpa [he, hte] using hfind
    | some te =>
      by_cases hle : ceilDiv (te - now) msPerDay ≤ 0
      · have hd : ¬(ceilDiv (te - now) msPerDay = 1 ∨ ceilDiv (te - now) msPerDay = 2) := by
          omega
        simp only [he, hte, hd, hle, if_false, if_true, if_neg, if_pos]
        unfold MemStorage.updateUser
        simp only [hd, if_neg, if_false]
        rw [hfind]
        dsimp only
        rw [find?_setById_of_eq User.id (fun _ => applyUserPatch u { subscriptionType := some "free", identificationsRemaining := some 3 }) u.id (fun x _ => rfl), hfind]
        simp [applyUserPatch, hte]
      · by_cases hd : ceilDiv (te - now) msPerDay = 1 ∨ ceilDiv (te - now) msPerDay = 2 <;>
          simpa [he, hte, hd, hle] using hfind

theorem sweep_foldl_snd (now : Time) (l : List User) :
    ∀ acc : Store × List (String × Int),
      (l.foldl (trialSweepStep now) acc).2 = acc.2 ++ l.filterMap (trialReminder now) := by
  induction l with
  | nil => intro acc; simp
  | cons u l ih =>
    intro acc
    rw [List.foldl_cons, ih, trialSweepStep_snd]
    cases h : trialReminder now u <;> simp [List.filterMap_cons, h]

theorem sweep_foldl_find_ne (now : Time) {l : List User} {i : Nat}
    (hl : ∀ v ∈ l, v.id ≠ i) :
    ∀ acc : Store × List (String × Int),
      (l.foldl (trialSweepStep now) acc).1.users.find? (fun v => v.id == i) =
        acc.1.users.find? (fun v => v.id == i) := by
  induction l with
  | nil => intro acc; rfl
  | cons u l ih =>
    intro acc
    rw [List.foldl_cons, ih (fun v hv => hl v (List.mem_cons_of_mem u hv)),
      trialSweepStep_fst_find_ne now acc u (hl u (List.mem_cons_self u l))]

theorem sweep_foldl_find_main (now : Time) {l : List User} {u : User}
    (hmem : u ∈ l) (hnd : (l.map User.id).Nodup) :
    ∀ acc : Store × List (String × Int),
      acc.1.users.find? (fun v => v.id == u.id) = some u →
      (l.foldl (trialSweepStep now) acc).1.users.find? (fun v => v.id == u.id) =
        some (sweepUserResult now u) := by
  obtain ⟨l1, l2, rfl⟩ := List.append_of_mem hmem
  intro acc hfind
  have hnd' := hnd
  rw [List.map_append, List.map_cons, List.nodup_append] at hnd'
  obtain ⟨hnd1, hnd2, hdisj⟩ := hnd'
  have h1 : ∀ v ∈ l1, v.id ≠ u.id := by
    intro v hv hc
    exact (hdisj (List.mem_map_of_mem User.id hv)) (hc ▸ List.mem_cons_self u.id _)
  have h2 : ∀ v ∈ l2, v.id ≠ u.id := by
    intro v hv hc
    have := (List.nodup_cons.mp hnd2).1
    exact this (hc ▸ List.mem_map_of_mem User.id hv)
  rw [List.foldl_append, List.foldl_cons]
  rw [sweep_foldl_find_ne now h2]
  apply trialSweepStep_fst_find_self
  rw [sweep_foldl_find_ne now h1]
  exact hfind

/-- C8 is false as stated: a trial user whose stored email is the empty
string (a non-null value, since the email column is non-nullable) is skipped
by the sweep's truthiness test, so their expired trial is never downgraded. -/
theorem C8_counterexample :
    ((trialSweep emptyEmailTrialStore (10 * msPerDay)).1.users.map
      (fun u => u.subscriptionType)) = ["trial"] ∧
    (trialSweep emptyEmailTrialStore (10 * msPerDay)).2 = [] := by
  decide

/-- C8 (amended): each sweep tick computes
`daysRemaining = ceil((trialEndDate - now) / 1 day)` for every trial user
with a non-empty (truthy) email and a set trial end date; it emits exactly
the reminder emails of the snapshot users whose `daysRemaining` is 1 or 2,
downgrades exactly the users with `daysRemaining <= 0` to free with a quota
of 3, and leaves every other user record - including every user not on
trial, every trial user with an empty email, and every trial user with no
end date - unchanged. -/
theorem C8_amended (s : Store) (now : Time)
    (hn : (s.users.map User.id).Nodup) :
    (trialSweep s now).2 =
      (s.users.filter (fun u => u.subscriptionType == "trial")).filterMap (trialReminder now) ∧
    (∀ u ∈ s.users, u.subscriptionType ≠ "trial" →
      (trialSweep s now).1.users.find? (fun v => v.id == u.id) = some u) ∧
    (∀ u ∈ s.users, u.subscriptionType = "trial" → ∀ te, u.trialEndDate = some te →
      u.email ≠ "" → ceilDiv (te - now) msPerDay ≤ 0 →
      (trialSweep s now).1.users.find? (fun v => v.id == u.id) =
        some { u with subscriptionType := "free", identificationsRemaining := 3 }) ∧
    (∀ u ∈ s.users, u.subscriptionType = "trial" → ∀ te, u.trialEndDate = some te →
      u.email ≠ "" → 0 < ceilDiv (te - now) msPerDay →
      (trialSweep s now).1.users.find? (fun v => v.id == u.id) = some u) ∧
    (∀ u ∈ s.users, u.email = "" →
      (trialSweep s now).1.users.find? (fun v => v.id == u.id) = some u) ∧
    (∀ u ∈ s.users, u.trialEndDate = none →
      (trialSweep s now).1.users.find? (fun v => v.id == u.id) = some u) := by
  have hsub : ((s.users.filter (fun u => u.subscriptionType == "trial")).map User.id).Nodup :=
    ((List.filter_sublist s.users).map User.id).nodup hn
  have hinit : ∀ u ∈ s.users, s.users.find? (fun v => v.id == u.id) = some u :=
    fun u hu => find?_eq_of_mem_nodup User.id hn hu
  have hmemsnap : ∀ u ∈ s.users, u.subscriptionType = "trial" →
      u ∈ s.users.filter (fun v => v.subscriptionType == "trial") := by
    intro u hu ht
    rw [List.mem_filter]
    exact ⟨hu, by simp [ht]⟩
  have hnotsnap : ∀ u ∈ s.users, u.subscriptionType ≠ "trial" →
      ∀ v ∈ s.users.filter (fun w => w.subscriptionType == "trial"), v.id ≠ u.id := by
    intro u hu ht v hv hc
    have hv' := List.mem_filter.mp hv
    have : v = u := List.inj_on_of_nodup_map hn hv'.1 hu hc
    rw [this] at hv'
    exact ht (by simpa using hv'.2)
  refine ⟨?_, ?_, ?_, ?_, ?_, ?_⟩
  · unfold trialSweep
    rw [sweep_foldl_snd]
    rfl
  · intro u hu ht
    unfold trialSweep
    rw [sweep_foldl_find_ne now (hnotsnap u hu ht)]
    exact hinit u hu
  · intro u hu ht te hte he hle
    unfold trialSweep
    rw [sweep_foldl_find_main now (hmemsnap u hu ht) hsub _ (hinit u hu)]
    simp [sweepUserResult, he, hte, hle]
  · intro u hu ht te hte he hpos
    unfold trialSweep
    rw [sweep_foldl_find_main now (hmemsnap u hu ht) hsub _ (hinit u hu)]
    simp [sweepUserResult, he, hte]
    omega
  · intro u hu he
    by_cases ht : u.subscriptionType = "trial"
    · unfold trialSweep
      rw [sweep_foldl_find_main now (hmemsnap u hu ht) hsub _ (hinit u hu)]
      simp [sweepUserResult, he]
    · unfold trialSweep
      rw [sweep_foldl_find_ne now (hnotsnap u hu ht)]
      exact hinit u hu
  · intro u hu hte
    by_cases ht : u.subscriptionType = "trial"
    · unfold trialSweep
      rw [sweep_foldl_find_main now (hmemsnap u hu ht) hsub _ (hinit u hu)]
      by_cases he : u.email = "" <;> simp [sweepUserResult, he, hte]
    · unfold trialSweep
      rw [sweep_foldl_find_ne now (hnotsnap u hu ht)]
      exact hinit u hu

theorem C8_amended_witness :
    (trialSweep sweepStore (10 * msPerDay)).2 = [("w@x.io", 2)] ∧
    (trialSweep sweepStore (10 * msPerDay)).1.users.find? (fun v => v.id == 1) =
      some { mkUser 1 "trial" 10 "t@x.io" (some 0) with subscriptionType := "free", identificationsRemaining := 3 } ∧
    (trialSweep sweepStore (10 * msPerDay)).1.users.find? (fun v => v.id == 2) =
      some (mkUser 2 "trial" 10 "w@x.io" (some (12 * msPerDay))) ∧
    (trialSweep sweepStore (10 * msPerDay)).1.users.find? (fun v => v.id == 3) =
      some (mkUser 3 "free" 3 "f@x.io" none) ∧
    (trialSweep sweepStore (10 * msPerDay)).1.users.find? (fun v => v.id == 4) =
      some (mkUser 4 "trial" 10 "" (some 0)) := by
  have h := C8_amended sweepStore (10 * msPerDay) (by decide)
  refine ⟨?_, ?_, ?_, ?_, ?_⟩
  · rw [h.1]
    decide
  · exact h.2.2.1 (mkUser 1 "trial" 10 "t@x.io" (some 0)) (by decide) rfl 0 rfl
      (by decide) (by decide)
  · exact h.2.2.2.1 (mkUser 2 "trial" 10 "w@x.io" (some (12 * msPerDay))) (by decide) rfl
      (12 * msPerDay) rfl (by decide) (by decide)
  · exact h.2.1 (mkUser 3 "free" 3 "f@x.io" none) (by decide) (by decide)
  · exact h.2.2.2.2.1 (mkUser 4 "trial" 10 "" (some 0)) (by decide) rfl

end SnapThePlant
